import Mathlib

/-
Verification of the SQRS (Smart Queue Routing System) matching engine.

This file gives a shallow embedding of the routing core found in
  backend/ml/routing_predictor.py   (feature scoring, rule-based fallback)
  backend/services/routing_engine.py (routing matrix, greedy assignment, statistics)
  backend/app.py                    (manual_route, reset_queue, complete_routing_task)
  backend/services/data_store.py    (queue / agent / result bookkeeping)
and proves or refutes the specified properties of that core.

Numbers are modelled with the rationals: every constant in the source is a
small decimal literal and every arithmetic step is exact on such inputs, so the
rational semantics agrees with the float semantics well within the tolerances
the specification uses. Wall-clock fields (timestamps) and the external ML
artifact are outside the embedded core: the predictor is modelled in its
model-absent configuration, where predict_routing_score is the rule-based
fallback, and the square root inside np.std is kept as an uninterpreted parameter.
-/

namespace SQRS

/-- Customer sentiment, the Literal type from models/data_models.py. -/
inductive Sentiment
  | negative
  | neutral
  | positive
  deriving DecidableEq

/-- Customer tier, the Literal type from models/data_models.py. -/
inductive Tier
  | basic
  | standard
  | premium
  deriving DecidableEq

/-- Contact channel, the Literal type from models/data_models.py. -/
inductive Channel
  | chat
  | voice
  | phone
  | email
  deriving DecidableEq

/-- Agent status, the Literal type from models/data_models.py. -/
inductive AgentStatus
  | available
  | busy
  | offline
  deriving DecidableEq

/-- Routing result status, the Literal type from models/data_models.py. -/
inductive RoutingStatus
  | pending
  | active
  | completed
  deriving DecidableEq

/-- Customer record from models/data_models.py (wall-clock and free-form context
fields are not modelled; they play no role in the routing core). -/
structure Customer where
  id : String
  name : String
  sentiment : Sentiment
  tier : Tier
  issue_type : String
  issue_complexity : ℚ
  channel : Channel
  wait_time : ℕ
  priority : ℤ
  deriving DecidableEq

/-- Agent record from models/data_models.py (the last_updated timestamp is not
modelled). -/
structure Agent where
  id : String
  name : String
  specialty : List String
  experience : ℚ
  avg_handling_time : ℚ
  past_success_rate : ℚ
  current_workload : ℕ
  max_concurrent : ℕ
  status : AgentStatus
  skills : List (String × ℚ)
  deriving DecidableEq

/-- Routing result record from models/data_models.py (timestamp, conversation
summary and feedback attachments are not modelled). -/
structure RoutingResult where
  id : String
  customer_id : String
  agent_id : String
  routing_score : ℚ
  reasoning : List String
  status : RoutingStatus
  deriving DecidableEq

instance : Inhabited Customer :=
  ⟨{ id := "", name := "", sentiment := .neutral, tier := .standard, issue_type := "",
     issue_complexity := 1, channel := .chat, wait_time := 0, priority := 1 }⟩

instance : Inhabited Agent :=
  ⟨{ id := "", name := "", specialty := [], experience := 0, avg_handling_time := 0,
     past_success_rate := 0, current_workload := 0, max_concurrent := 1,
     status := .offline, skills := [] }⟩

/-- The static related-issues table of
RoutingScorePredictor._calculate_specialty_match: for a customer issue type it
lists the agent specialties counted as related. It is the literal dict from
the source, which is not symmetric: account_management maps to billing only. -/
def related_matches (issue_type : String) : List String :=
  if issue_type = "technical_support" then ["product_inquiry"]
  else if issue_type = "billing" then ["account_management"]
  else if issue_type = "sales" then ["product_inquiry"]
  else if issue_type = "account_management" then ["billing"]
  else if issue_type = "product_inquiry" then ["technical_support", "sales"]
  else if issue_type = "complaint_resolution" then ["account_management"]
  else []

/-- RoutingScorePredictor._calculate_specialty_match from
backend/ml/routing_predictor.py. The source checks the empty specialty list
first, then the direct match, then the related table. -/
def calculate_specialty_match (agent : Agent) (customer : Customer) : ℚ :=
  if agent.specialty = [] then 0.3
  else if customer.issue_type ∈ agent.specialty then 0.9
  else if (related_matches customer.issue_type).any (fun spec => agent.specialty.contains spec) then 0.6
  else 0.2

/-- Workload ratio current_workload / max(max_concurrent, 1), as computed in
the fallback scorer and the reasoning generator. -/
def workload_ratio (agent : Agent) : ℚ :=
  (agent.current_workload : ℚ) / (max agent.max_concurrent 1 : ℕ)

/-- Sentiment bonus dict of _fallback_rule_based_score. -/
def sentiment_bonus : Sentiment → ℚ
  | .negative => -0.2
  | .neutral => 0.0
  | .positive => 0.1

/-- Tier bonus dict of _fallback_rule_based_score. -/
def tier_bonus : Tier → ℚ
  | .basic => -0.05
  | .standard => 0.0
  | .premium => 0.1

/-- RoutingScorePredictor._fallback_rule_based_score from
backend/ml/routing_predictor.py: base 0.5, then sentiment, tier, complexity,
specialty, experience, past-success and workload adjustments in source order,
finally clamped into the interval from 0.1 to 0.9. -/
def fallback_rule_based_score (customer : Customer) (agent : Agent) : ℚ :=
  let score0 : ℚ := 0.5
  let score1 := score0 + sentiment_bonus customer.sentiment
  let score2 := score1 + tier_bonus customer.tier
  let score3 := score2 - ((customer.issue_complexity - 1) / 4) * 0.3
  let score4 := score3 + calculate_specialty_match agent customer * 0.4
  let score5 := score4 + min 0.2 (agent.experience * 0.05)
  let score6 := score5 + (agent.past_success_rate - 0.5) * 0.3
  let score7 := score6 - workload_ratio agent * 0.2
  max 0.1 (min 0.9 score7)

/-- RoutingScorePredictor.predict_routing_score in the model-absent
configuration: with self.model equal to None the method returns
_fallback_rule_based_score directly. The external scoring artifact is a
black-box collaborator outside the embedded core. -/
def predict_routing_score (customer : Customer) (agent : Agent) : ℚ :=
  fallback_rule_based_score customer agent

/-- The tie_break_threshold constant set in RoutingEngine.__init__. -/
def tie_break_threshold : ℚ := 0.03

/-- Stable insertion of a customer index into a list already ordered by
priority descending: the new index goes in front of the first index of
priority not above its own. Together with sortByPriorityDesc this computes
the unique stable descending order, which is what the source line
customer_indices.sort with key priority and reverse set produces (the list
sort in the source is stable and keeps enqueue order between equal keys). -/
def insertByPriority (p : ℕ → ℤ) (i : ℕ) : List ℕ → List ℕ
  | [] => [i]
  | j :: rest => if p j ≤ p i then i :: j :: rest else j :: insertByPriority p i rest

/-- Stable sort of customer indices by priority descending, matching the
customer-index sort in RoutingEngine._perform_optimal_assignment. -/
def sortByPriorityDesc (p : ℕ → ℤ) : List ℕ → List ℕ
  | [] => []
  | i :: rest => insertByPriority p i (sortByPriorityDesc p rest)

/-- Inner agent scan of RoutingEngine._perform_optimal_assignment: walk the
remaining agent indices carrying the pair best_score and best_agent_idx,
which start at -1 and None. A strictly greater score takes over; otherwise a
score within tie_break_threshold of the current best triggers the
lower-workload tie-break. In that branch the source indexes
agents with best_agent_idx, which raises if it is still None; the error value
models that raise. -/
def findBestAux (agents : List Agent) (row : ℕ → ℚ) (used : List ℕ) :
    List ℕ → ℚ × Option ℕ → Except Unit (ℚ × Option ℕ)
  | [], st => .ok st
  | j :: js, st =>
    if j ∈ used then
      findBestAux agents row used js st
    else if row j > st.1 then
      findBestAux agents row used js (row j, some j)
    else if |row j - st.1| < tie_break_threshold then
      match st.2 with
      | none => .error ()
      | some bi =>
        if (agents.getD j default).current_workload < (agents.getD bi default).current_workload then
          findBestAux agents row used js (row j, some j)
        else
          findBestAux agents row used js st
    else
      findBestAux agents row used js st

/-- Best-agent search for one customer: the inner loop of
_perform_optimal_assignment over all agent indices, starting from
best_score -1 and best_agent_idx None. -/
def findBest (agents : List Agent) (row : ℕ → ℚ) (used : List ℕ) :
    Except Unit (ℚ × Option ℕ) :=
  findBestAux agents row used (List.range agents.length) (-1, none)

/-- Outer loop of _perform_optimal_assignment: customers in stable
priority-descending order, each taking its best unused agent; an assigned
agent index is added to used_agents for the rest of the pass. -/
def assignLoop (agents : List Agent) (matrix : ℕ → ℕ → ℚ) :
    List ℕ → List (ℕ × ℕ × ℚ) → List ℕ → Except Unit (List (ℕ × ℕ × ℚ))
  | [], acc, _ => .ok acc
  | ci :: cis, acc, used =>
    match findBest agents (matrix ci) used with
    | .error e => .error e
    | .ok (_, none) => assignLoop agents matrix cis acc used
    | .ok (score, some bi) => assignLoop agents matrix cis (acc ++ [(ci, bi, score)]) (bi :: used)

/-- RoutingEngine._perform_optimal_assignment from
backend/services/routing_engine.py: greedy assignment of customers, visited
by priority descending, to their best-scoring unused agents. -/
def perform_optimal_assignment (customers : List Customer) (agents : List Agent)
    (matrix : ℕ → ℕ → ℚ) : Except Unit (List (ℕ × ℕ × ℚ)) :=
  assignLoop agents matrix
    (sortByPriorityDesc (fun i => (customers.getD i default).priority)
      (List.range customers.length))
    [] []

/-- RoutingEngine._calculate_routing_matrix: the dense score matrix with one
predict_routing_score entry per customer-agent pair, represented as a
function of the two indices. -/
def calculate_routing_matrix (customers : List Customer) (agents : List Agent) :
    ℕ → ℕ → ℚ :=
  fun i j => predict_routing_score (customers.getD i default) (agents.getD j default)

/-- The agent pre-filter at the top of RoutingEngine.route_customers: status
available and current_workload strictly below max_concurrent. -/
def available_filter (agents : List Agent) : List Agent :=
  agents.filter (fun agent =>
    agent.status == AgentStatus.available && agent.current_workload < agent.max_concurrent)

/-- RoutingEngine.route_customers reduced to its assignment content: filter
the agents, build the matrix and solve. Result construction only repackages
these triples into RoutingResult records. -/
def route_customers_assignments (customers : List Customer) (agents : List Agent) :
    Except Unit (List (ℕ × ℕ × ℚ)) :=
  if customers = [] then .ok []
  else
    let avail := available_filter agents
    if avail = [] then .ok []
    else perform_optimal_assignment customers avail (calculate_routing_matrix customers avail)

/-- Minimum of a list of scores, as the builtin min over a nonempty Python
list (0 as an unused placeholder for the empty list, which the source never
reaches). -/
def listMin : List ℚ → ℚ
  | [] => 0
  | x :: xs => xs.foldl min x

/-- Maximum of a list of scores, as the builtin max over a nonempty Python
list. -/
def listMax : List ℚ → ℚ
  | [] => 0
  | x :: xs => xs.foldl max x

/-- Score distribution block returned by get_routing_statistics on nonempty
input. -/
structure ScoreDistribution where
  min : ℚ
  max : ℚ
  std : ℚ
  deriving DecidableEq

/-- Statistics dictionary of RoutingEngine.get_routing_statistics; the
score_distribution key is present exactly when the source adds it. -/
structure RoutingStatistics where
  total_routings : ℕ
  average_score : ℚ
  high_confidence_matches : ℕ
  medium_confidence_matches : ℕ
  low_confidence_matches : ℕ
  score_distribution : Option ScoreDistribution
  deriving DecidableEq

/-- The score list extracted from a batch of routing results in
get_routing_statistics. -/
def scores_of (results : List RoutingResult) : List ℚ :=
  results.map (fun r => r.routing_score)

/-- np.mean over the score list, exact. -/
def mean_score (results : List RoutingResult) : ℚ :=
  (scores_of results).sum / (results.length : ℚ)

/-- The mean squared deviation fed to the square root inside np.std. -/
def score_variance (results : List RoutingResult) : ℚ :=
  ((scores_of results).map (fun s => (s - mean_score results) ^ 2)).sum /
    ((scores_of results).length : ℚ)

/-- RoutingEngine.get_routing_statistics from
backend/services/routing_engine.py. np.mean is the exact mean, np.std is the
square root of the mean squared deviation; the square root itself is kept as
the uninterpreted parameter sqrtA, since its value never influences the specified
properties. -/
def get_routing_statistics (sqrtA : ℚ → ℚ) (results : List RoutingResult) :
    RoutingStatistics :=
  if results = [] then
    { total_routings := 0
      average_score := 0.0
      high_confidence_matches := 0
      medium_confidence_matches := 0
      low_confidence_matches := 0
      score_distribution := none }
  else
    let scores := scores_of results
    { total_routings := results.length
      average_score := mean_score results
      high_confidence_matches := scores.countP (fun s => decide (s ≥ 0.8))
      medium_confidence_matches := scores.countP (fun s => decide (0.6 ≤ s ∧ s < 0.8))
      low_confidence_matches := scores.countP (fun s => decide (s < 0.6))
      score_distribution := some
        { min := listMin scores
          max := listMax scores
          std := sqrtA (score_variance results) } }

/-- In-memory system state owned by app.state: the waiting queue, the agent
pool and the routing results, all in insertion order (the source keeps them
in insertion-ordered dicts keyed by id). -/
structure SystemState where
  customers : List Customer
  agents : List Agent
  routing_results : List RoutingResult
  deriving DecidableEq

/-- Failure responses of the manual_route endpoint, one per early return. -/
inductive ManualRouteError
  | customerNotFound
  | agentNotFound
  | agentNotAvailable
  deriving DecidableEq

/-- manual_route from backend/app.py: look up the customer and the agent,
refuse when either is missing or the agent status is not available, otherwise
store an active RoutingResult scored by the predictor, increment the target
agent workload and remove the customer from the queue. The state component
of the returned pair is the state after the call; new_id stands for the
freshly generated uuid of the result. -/
def manual_route (st : SystemState) (customer_id agent_id reasoning new_id : String) :
    SystemState × Except ManualRouteError RoutingResult :=
  match st.customers.find? (fun c => c.id == customer_id) with
  | none => (st, .error .customerNotFound)
  | some customer =>
    match st.agents.find? (fun a => a.id == agent_id) with
    | none => (st, .error .agentNotFound)
    | some agent =>
      if agent.status ≠ .available then (st, .error .agentNotAvailable)
      else
        let result : RoutingResult :=
          { id := new_id
            customer_id := customer_id
            agent_id := agent_id
            routing_score := predict_routing_score customer agent
            reasoning := [reasoning]
            status := .active }
        ({ customers := st.customers.filter (fun c => ¬ c.id == customer_id)
           agents := st.agents.map (fun a =>
             if a.id == agent_id then { a with current_workload := a.current_workload + 1 } else a)
           routing_results := st.routing_results ++ [result] },
         .ok result)

/-- Failure responses of the complete_routing_task endpoint: the two explicit
not-found returns, and the AttributeError that every run reaching the main
body raises, because the source calls
DataStore.update_routing_result_status, a method DataStore never defines;
the except handler catches it and reports a failure to the caller. -/
inductive CompleteError
  | routingNotFound
  | agentNotFound
  | attributeError
  deriving DecidableEq

/-- complete_routing_task from backend/app.py, restricted to its lifecycle
content: find the routing result and its agent, mutate the in-memory result
to completed (this line executes and the stored object keeps the change),
then call DataStore.update_routing_result_status - a method DataStore does
not define, so an AttributeError is raised there, caught by the except
handler of the endpoint and returned as a failure. The agent workload
decrement and the status recompute written after that call are dead code on
every run, so the agent pool is returned untouched. Conversation summaries,
feedback and timing are outside the embedded core. -/
def complete_routing_task (st : SystemState) (routing_id : String) :
    SystemState × Except CompleteError Unit :=
  match st.routing_results.find? (fun r => r.id == routing_id) with
  | none => (st, .error .routingNotFound)
  | some rr =>
    match st.agents.find? (fun a => a.id == rr.agent_id) with
    | none => (st, .error .agentNotFound)
    | some _agent =>
      ({ st with
         routing_results := st.routing_results.map (fun r =>
           if r.id == routing_id then { r with status := .completed } else r) },
       .error .attributeError)

/-- reset_queue from backend/app.py: clear the routing results, zero every
agent workload and force every agent available, then run
DataStore._create_mock_customers, which generates a fresh batch of mock
customers and adds them to the existing queue dict without clearing it. The
fresh batch (randomly generated in the source, between three and six
customers) is passed in as the parameter fresh. -/
def reset_queue (st : SystemState) (fresh : List Customer) : SystemState :=
  { customers := st.customers ++ fresh
    agents := st.agents.map (fun a => { a with current_workload := 0, status := .available })
    routing_results := [] }

/-- Ordering constraint satisfied by the output of the stable
priority-descending sort over enqueue positions: an index may only follow
another when its priority is strictly lower, or equal with a later enqueue
position. -/
def lexAfter (p : ℕ → ℤ) (i j : ℕ) : Prop :=
  p j < p i ∨ (p i = p j ∧ i < j)

/-- Baseline customer for the concrete scenarios below. -/
def base_customer : Customer :=
  { id := "cust0", name := "cust0", sentiment := .neutral, tier := .standard,
    issue_type := "billing", issue_complexity := 2, channel := .chat,
    wait_time := 0, priority := 5 }

/-- Baseline agent for the concrete scenarios below. -/
def base_agent : Agent :=
  { id := "agent0", name := "agent0", specialty := ["billing"], experience := 3,
    avg_handling_time := 10, past_success_rate := 0.8, current_workload := 0,
    max_concurrent := 3, status := .available, skills := [] }

/-- The customer of the concrete fallback-formula scenario of the spec. -/
def c4_customer : Customer :=
  { base_customer with
    id := "c4c"
    name := "c4c"
    sentiment := .negative
    tier := .premium
    issue_type := "billing"
    issue_complexity := 4.0 }

/-- The agent of the concrete fallback-formula scenario of the spec. -/
def c4_agent : Agent :=
  { base_agent with
    id := "c4a"
    name := "c4a"
    specialty := ["billing"]
    experience := 5
    past_success_rate := 0.9
    current_workload := 0
    max_concurrent := 3 }

/-- Customer with an account_management issue. -/
def c5_customer : Customer :=
  { base_customer with id := "c5c", issue_type := "account_management" }

/-- Agent specialized in complaint_resolution only. -/
def c5_agent : Agent :=
  { base_agent with id := "c5a", specialty := ["complaint_resolution"] }

/-- Agent visited first in the tie-break scenario: idle. -/
def c2_agent0 : Agent :=
  { base_agent with id := "a0", name := "a0", specialty := [] }

/-- Agent visited second in the tie-break scenario: workload two. -/
def c2_agent1 : Agent :=
  { base_agent with id := "a1", name := "a1", specialty := [], current_workload := 2 }

/-- Score row of the tie-break scenario: the second agent scores 0.52,
within 0.03 of the first agent at 0.50 and strictly above it. -/
def c2_matrix : ℕ → ℕ → ℚ :=
  fun _ j => if j = 0 then 0.5 else 0.52

/-- First-enqueued customer of the single-agent scenario, priority 2. -/
def c7_custB : Customer := { base_customer with id := "cB", name := "cB", priority := 2 }

/-- Second-enqueued customer of the single-agent scenario, priority 9. -/
def c7_custA : Customer := { base_customer with id := "cA", name := "cA", priority := 9 }

/-- Agent at full capacity yet still marked available, as auto-routing
leaves it: the route handler increments current_workload without ever
changing status to busy. -/
def c1_agent : Agent :=
  { base_agent with
    id := "ag1"
    current_workload := 3
    max_concurrent := 3
    status := .available }

/-- Waiting customer of the capacity-overflow scenario. -/
def c1_customer : Customer := { base_customer with id := "cu1" }

/-- State in which the workload invariant is about to be violated. -/
def c1_state : SystemState :=
  { customers := [c1_customer], agents := [c1_agent], routing_results := [] }

/-- Empty system state. -/
def empty_state : SystemState :=
  { customers := [], agents := [], routing_results := [] }

/-- First mock batch appended by a reset call. -/
def c3_batch1 : List Customer :=
  [{ base_customer with id := "m1" }, { base_customer with id := "m2" },
   { base_customer with id := "m3" }]

/-- Second mock batch appended by a second reset call. -/
def c3_batch2 : List Customer :=
  [{ base_customer with id := "m4" }, { base_customer with id := "m5" },
   { base_customer with id := "m6" }]

/-- State with one customer and no agents. -/
def c8_state_no_agent : SystemState :=
  { customers := [c1_customer], agents := [], routing_results := [] }

/-- Busy agent used as an invalid manual-routing target. -/
def c8_busy_agent : Agent := { base_agent with id := "ag8", status := .busy }

/-- State whose only agent is busy. -/
def c8_state_busy : SystemState :=
  { customers := [c1_customer], agents := [c8_busy_agent], routing_results := [] }

/-- Agent serving the active routing result of the completion scenario. -/
def c9_agent : Agent :=
  { base_agent with
    id := "ag9"
    current_workload := 3
    max_concurrent := 3
    status := .busy }

/-- Active routing result to be completed. -/
def c9_result : RoutingResult :=
  { id := "rr9", customer_id := "cu9", agent_id := "ag9", routing_score := 0.7,
    reasoning := ["manual"], status := .active }

/-- State of the completion scenario. -/
def c9_state : SystemState :=
  { customers := [], agents := [c9_agent], routing_results := [c9_result] }

/-- Single routing result used to instantiate the statistics claims. -/
def c10_result : RoutingResult :=
  { id := "rr10", customer_id := "cu10", agent_id := "ag10", routing_score := 0.85,
    reasoning := [], status := .active }

/-- Id of the waiting customer in the concrete scenarios. -/
def id_cu1 : String := "cu1"

/-- Id of the full-capacity available agent. -/
def id_ag1 : String := "ag1"

/-- Id of the busy agent. -/
def id_ag8 : String := "ag8"

/-- Id of the active routing result of the completion scenario. -/
def id_rr9 : String := "rr9"

/-- Supervisor reasoning string passed to manual_route. -/
def manual_reason : String := "supervisor request"

/-- Fresh uuid stand-in for a manually created routing result. -/
def new_rid : String := "rid-new"

/-- C4: on the concrete fallback-formula scenario of the spec, the rule-based
fallback returns exactly 0.855, trivially within the 1e-6 tolerance the spec
allows; the eight adjustment steps are applied in the source order inside
fallback_rule_based_score. -/
theorem fallback_score_concrete_scenario :
    fallback_rule_based_score c4_customer c4_agent = 0.855 ∧
    |fallback_rule_based_score c4_customer c4_agent - 0.855| < 1e-6 := by
  have h : fallback_rule_based_score c4_customer c4_agent = 0.855 := by
    with_unfolding_all rfl
  refine ⟨h, ?_⟩
  rw [h]
  norm_num

/-- C5 counterexample: a customer with issue_type account_management facing an
agent whose specialty includes complaint_resolution scores 0.2, not the 0.6
the claim asserts, because the related-issues dict maps account_management to
billing only. -/
theorem specialty_match_asymmetry_counterexample :
    calculate_specialty_match c5_agent c5_customer = 0.2 ∧
    ¬ calculate_specialty_match c5_agent c5_customer = 0.6 := by
  have h : calculate_specialty_match c5_agent c5_customer = 0.2 := by
    with_unfolding_all rfl
  refine ⟨h, ?_⟩
  rw [h]
  norm_num

/-- C5 amended: specialty_match returns 0.9 on a direct specialty match, else
0.6 when the related-issues table of the source maps the customer's issue
type to one of the agent's specialties, else 0.3 for an agent with no
specialties, else 0.2. The table is directional: account_management relates
to billing only, so a complaint_resolution specialist on an
account_management issue scores 0.2. -/
theorem specialty_match_characterization :
    (∀ (agent : Agent) (customer : Customer),
      calculate_specialty_match agent customer =
        (if customer.issue_type ∈ agent.specialty then 0.9
         else if (related_matches customer.issue_type).any
             (fun spec => agent.specialty.contains spec) then 0.6
         else if agent.specialty = [] then 0.3
         else 0.2)) ∧
    related_matches "account_management" = ["billing"] := by
  constructor
  · intro agent customer
    unfold calculate_specialty_match
    by_cases hs : agent.specialty = []
    · rw [if_pos hs, hs]
      simp
    · rw [if_neg hs]
      by_cases hd : customer.issue_type ∈ agent.specialty
      · rw [if_pos hd, if_pos hd]
      · rw [if_neg hd, if_neg hd]
        by_cases hr : (related_matches customer.issue_type).any
            (fun spec => agent.specialty.contains spec) = true
        · rw [if_pos hr, if_pos hr]
        · rw [if_neg hr, if_neg hr, if_neg hs]
  · with_unfolding_all rfl

/-- C1: the workload invariant fails on the code. In a state whose only agent
is at full capacity yet still marked available (the state repeated
auto-routing passes produce, since the route handlers increment workloads
without ever switching status to busy), manual_route accepts the assignment,
stores a routing result and raises current_workload to max_concurrent + 1. -/
theorem manual_route_exceeds_max_concurrent :
    c1_agent.current_workload ≤ c1_agent.max_concurrent ∧
    c1_agent.status = .available ∧
    (manual_route c1_state id_cu1 id_ag1 manual_reason new_rid).1.agents.map
        (fun a => a.current_workload) = [c1_agent.max_concurrent + 1] ∧
    (manual_route c1_state id_cu1 id_ag1 manual_reason new_rid).1.routing_results.length
        = 1 ∧
    ¬ c1_agent.max_concurrent + 1 ≤ c1_agent.max_concurrent := by
  refine ⟨by decide, rfl, by decide, by decide, by decide⟩

/-- C3 counterexample: a second consecutive reset appends a second fresh mock
batch to the queue, so the resulting state differs from the state after a
single reset; reset is not idempotent on the customer queue. -/
theorem reset_queue_not_idempotent :
    (reset_queue (reset_queue empty_state c3_batch1) c3_batch2).customers.length = 6 ∧
    (reset_queue empty_state c3_batch1).customers.length = 3 ∧
    reset_queue (reset_queue empty_state c3_batch1) c3_batch2 ≠
      reset_queue empty_state c3_batch1 := by
  refine ⟨rfl, rfl, fun h => ?_⟩
  exact absurd (congrArg (fun s => s.customers.length) h) (by decide)

/-- C3 amended: reset is idempotent on the routing results and on the agent
pool: after one reset every agent is available with zero workload and all
results are cleared, and a second reset leaves agents and results unchanged.
It is not idempotent on the customer queue: every call appends a further
fresh batch of mock customers. -/
theorem reset_queue_idempotent_except_queue :
    ∀ (st : SystemState) (b1 b2 : List Customer),
      (reset_queue (reset_queue st b1) b2).agents = (reset_queue st b1).agents ∧
      (reset_queue (reset_queue st b1) b2).routing_results =
        (reset_queue st b1).routing_results ∧
      (reset_queue st b1).routing_results = [] ∧
      (∀ a ∈ (reset_queue st b1).agents,
        a.current_workload = 0 ∧ a.status = .available) ∧
      (reset_queue (reset_queue st b1) b2).customers =
        (reset_queue st b1).customers ++ b2 := by
  intro st b1 b2
  refine ⟨?_, rfl, rfl, ?_, rfl⟩
  · show (st.agents.map _).map _ = st.agents.map _
    rw [List.map_map]
    rfl
  · intro a ha
    rcases List.mem_map.1 ha with ⟨b, _, rfl⟩
    exact ⟨rfl, rfl⟩

/-- C3 witness: the amended reset behaviour evaluated on the concrete state
and mock batches. -/
theorem reset_queue_idempotent_except_queue_witness :
    (reset_queue (reset_queue empty_state c3_batch1) c3_batch2).agents
        = (reset_queue empty_state c3_batch1).agents ∧
    (reset_queue (reset_queue empty_state c3_batch1) c3_batch2).routing_results
        = (reset_queue empty_state c3_batch1).routing_results ∧
    (reset_queue empty_state c3_batch1).routing_results = [] ∧
    (∀ a ∈ (reset_queue empty_state c3_batch1).agents,
      a.current_workload = 0 ∧ a.status = .available) ∧
    (reset_queue (reset_queue empty_state c3_batch1) c3_batch2).customers
        = (reset_queue empty_state c3_batch1).customers ++ c3_batch2 :=
  reset_queue_idempotent_except_queue empty_state c3_batch1 c3_batch2

/-- Updating exactly the elements a Bool predicate selects commutes with
find? on that predicate, when the update preserves the predicate. This is how
the embedded endpoints mutate one record of an id-keyed collection. -/
theorem find?_map_update {α : Type} (p : α → Bool) (f : α → α)
    (hp : ∀ a, p a = true → p (f a) = true) :
    ∀ l : List α,
      (l.map (fun a => if p a then f a else a)).find? p = (l.find? p).map f := by
  intro l
  induction l with
  | nil => rfl
  | cons a l ih =>
    by_cases h : p a = true
    · rw [List.map_cons, if_pos h, List.find?_cons_of_pos _ (hp a h),
        List.find?_cons_of_pos _ h]
      rfl
    · have h' : p a = false := by revert h; cases p a <;> simp
      rw [List.map_cons, if_neg (by rw [h']; exact Bool.false_ne_true),
        List.find?_cons_of_neg _ (by rw [h']; exact Bool.false_ne_true),
        List.find?_cons_of_neg _ (by rw [h']; exact Bool.false_ne_true), ih]

/-- C8: each invalid manual-assignment target is reported as its own distinct
failure and the system state is returned unchanged: no result stored, no
workload changed, the customer still queued. -/
theorem manual_route_invalid_target_pure :
    ∀ (st : SystemState) (cid aid reasoning nid : String),
      (st.customers.find? (fun c => c.id == cid) = none →
        manual_route st cid aid reasoning nid = (st, .error .customerNotFound)) ∧
      (∀ customer, st.customers.find? (fun c => c.id == cid) = some customer →
        st.agents.find? (fun a => a.id == aid) = none →
        manual_route st cid aid reasoning nid = (st, .error .agentNotFound)) ∧
      (∀ customer agent, st.customers.find? (fun c => c.id == cid) = some customer →
        st.agents.find? (fun a => a.id == aid) = some agent →
        agent.status ≠ .available →
        manual_route st cid aid reasoning nid = (st, .error .agentNotAvailable)) := by
  intro st cid aid reasoning nid
  refine ⟨fun h => ?_, fun customer hc ha => ?_, fun customer agent hc ha hs => ?_⟩
  · unfold manual_route
    rw [h]
  · unfold manual_route
    rw [hc, ha]
  · unfold manual_route
    rw [hc, ha]
    simp only [if_pos hs]

/-- C8 witness: the three failure branches at concrete states: unknown
customer id on an empty state, unknown agent id, and a busy target agent. -/
theorem manual_route_invalid_target_pure_witness :
    manual_route empty_state id_cu1 id_ag1 manual_reason new_rid
      = (empty_state, .error .customerNotFound) ∧
    manual_route c8_state_no_agent id_cu1 id_ag1 manual_reason new_rid
      = (c8_state_no_agent, .error .agentNotFound) ∧
    manual_route c8_state_busy id_cu1 id_ag8 manual_reason new_rid
      = (c8_state_busy, .error .agentNotAvailable) :=
  ⟨(manual_route_invalid_target_pure empty_state id_cu1 id_ag1 manual_reason new_rid).1
      rfl,
   (manual_route_invalid_target_pure c8_state_no_agent id_cu1 id_ag1 manual_reason
      new_rid).2.1 c1_customer rfl rfl,
   (manual_route_invalid_target_pure c8_state_busy id_cu1 id_ag8 manual_reason
      new_rid).2.2 c1_customer c8_busy_agent rfl rfl (by decide)⟩

/-- C9: the code never performs the claimed completion bookkeeping. On the
concrete failing input the endpoint does mark the active result completed,
but the next line calls the nonexistent DataStore.update_routing_result_status
and the run ends in the caught AttributeError before the workload decrement
and the status recompute: the agent keeps workload 3 and status busy,
although the claim requires workload max 0 (3 - 1) = 2 and, 2 being strictly
below max_concurrent = 3, status available. -/
theorem complete_routing_task_crashes_before_decrement :
    (complete_routing_task c9_state id_rr9).2 = .error .attributeError ∧
    (complete_routing_task c9_state id_rr9).1.routing_results.map (fun r => r.status)
      = [.completed] ∧
    (complete_routing_task c9_state id_rr9).1.agents.map
      (fun a => (a.current_workload, a.status)) = [(3, .busy)] ∧
    c9_result.status = .active ∧
    max 0 (c9_agent.current_workload - 1) < c9_agent.max_concurrent ∧
    ¬ ((3 : ℕ), AgentStatus.busy)
        = (max 0 (c9_agent.current_workload - 1), AgentStatus.available) := by
  refine ⟨rfl, by decide, by decide, rfl, by decide, by decide⟩

/-- Membership after stable insertion. -/
theorem mem_insertByPriority (p : ℕ → ℤ) (i : ℕ) :
    ∀ (l : List ℕ) (x : ℕ), x ∈ insertByPriority p i l ↔ x = i ∨ x ∈ l := by
  intro l
  induction l with
  | nil =>
    intro x
    simp [insertByPriority]
  | cons j rest ih =>
    intro x
    unfold insertByPriority
    by_cases h : p j ≤ p i
    · rw [if_pos h]
      simp [List.mem_cons]
    · rw [if_neg h]
      simp only [List.mem_cons, ih x]
      tauto

/-- Stable insertion permutes the plain cons. -/
theorem perm_insertByPriority (p : ℕ → ℤ) (i : ℕ) :
    ∀ l : List ℕ, (insertByPriority p i l).Perm (i :: l) := by
  intro l
  induction l with
  | nil => exact List.Perm.refl _
  | cons j rest ih =>
    unfold insertByPriority
    by_cases h : p j ≤ p i
    · rw [if_pos h]
    · rw [if_neg h]
      exact (ih.cons j).trans (List.Perm.swap i j rest)

/-- The stable sort is a permutation of its input. -/
theorem perm_sortByPriorityDesc (p : ℕ → ℤ) :
    ∀ l : List ℕ, (sortByPriorityDesc p l).Perm l := by
  intro l
  induction l with
  | nil => exact List.Perm.refl _
  | cons i rest ih =>
    unfold sortByPriorityDesc
    exact (perm_insertByPriority p i _).trans (ih.cons i)

/-- Stable insertion preserves the stable-descending ordering constraint when
the inserted index was enqueued before every index already present. -/
theorem pairwise_insertByPriority (p : ℕ → ℤ) (i : ℕ) :
    ∀ l : List ℕ, l.Pairwise (lexAfter p) → (∀ j ∈ l, i < j) →
      (insertByPriority p i l).Pairwise (lexAfter p) := by
  intro l
  induction l with
  | nil =>
    intro _ _
    simp [insertByPriority]
  | cons j rest ih =>
    intro hp hmem
    rcases List.pairwise_cons.1 hp with ⟨hjrest, hprest⟩
    unfold insertByPriority
    by_cases h : p j ≤ p i
    · rw [if_pos h]
      refine List.Pairwise.cons ?_ hp
      intro x hx
      have hix : i < x := hmem x hx
      have hpx : p x ≤ p i := by
        rcases List.mem_cons.1 hx with rfl | hxr
        · exact h
        · rcases hjrest x hxr with hlt | ⟨heq, _⟩
          · exact le_trans (le_of_lt hlt) h
          · exact le_trans (le_of_eq heq.symm) h
      rcases lt_or_eq_of_le hpx with hlt | heq
      · exact Or.inl hlt
      · exact Or.inr ⟨heq.symm, hix⟩
    · rw [if_neg h]
      have hji : p i < p j := lt_of_not_le h
      refine List.Pairwise.cons ?_
        (ih hprest (fun x hx => hmem x (List.mem_cons_of_mem j hx)))
      intro x hx
      rcases (mem_insertByPriority p i rest x).1 hx with rfl | hxr
      · exact Or.inl hji
      · exact hjrest x hxr

/-- The stable sort of an ascending list satisfies the stable-descending
ordering constraint. -/
theorem pairwise_sortByPriorityDesc (p : ℕ → ℤ) :
    ∀ l : List ℕ, l.Pairwise (· < ·) →
      (sortByPriorityDesc p l).Pairwise (lexAfter p) := by
  intro l
  induction l with
  | nil =>
    intro _
    simp [sortByPriorityDesc]
  | cons i rest ih =>
    intro hl
    rcases List.pairwise_cons.1 hl with ⟨hirest, hrest⟩
    unfold sortByPriorityDesc
    exact pairwise_insertByPriority p i _ (ih hrest)
      (fun j hj => hirest j ((perm_sortByPriorityDesc p rest).mem_iff.1 hj))

/-- C7: the solver visits customer indices as a permutation of the enqueue
range in stable priority-descending order (an index follows another only on
strictly lower priority, or equal priority and later enqueue position), and
in the concrete single-agent scenario the priority 9 customer, although
enqueued second, takes the only agent while the priority 2 customer is left
unassigned. -/
theorem solver_priority_order_and_scenario :
    (∀ (p : ℕ → ℤ) (n : ℕ),
      (sortByPriorityDesc p (List.range n)).Perm (List.range n) ∧
      (sortByPriorityDesc p (List.range n)).Pairwise (lexAfter p)) ∧
    perform_optimal_assignment [c7_custB, c7_custA] [base_agent] (fun _ _ => 0.7)
      = .ok [(1, 0, 0.7)] := by
  refine ⟨fun p n => ⟨perm_sortByPriorityDesc p _,
    pairwise_sortByPriorityDesc p _ (List.pairwise_lt_range n)⟩, ?_⟩
  with_unfolding_all rfl

/-- A successful inner scan that reports an agent index reports either an
unused index among those scanned, or the index it started from. -/
theorem findBestAux_ok_some (agents : List Agent) (row : ℕ → ℚ) (used : List ℕ) :
    ∀ (js : List ℕ) (st : ℚ × Option ℕ) (s : ℚ) (bi : ℕ),
      findBestAux agents row used js st = .ok (s, some bi) →
      (bi ∈ js ∧ bi ∉ used) ∨ st.2 = some bi := by
  intro js
  induction js with
  | nil =>
    intro st s bi h
    unfold findBestAux at h
    injection h with h'
    rw [h']
    exact Or.inr rfl
  | cons j js ih =>
    intro st s bi h
    unfold findBestAux at h
    by_cases hju : j ∈ used
    · rw [if_pos hju] at h
      rcases ih st s bi h with ⟨h1, h2⟩ | h3
      · exact Or.inl ⟨List.mem_cons_of_mem j h1, h2⟩
      · exact Or.inr h3
    · rw [if_neg hju] at h
      by_cases hgt : row j > st.1
      · rw [if_pos hgt] at h
        rcases ih _ s bi h with ⟨h1, h2⟩ | h3
        · exact Or.inl ⟨List.mem_cons_of_mem j h1, h2⟩
        · cases Option.some.inj h3
          exact Or.inl ⟨List.mem_cons_self j js, hju⟩
      · rw [if_neg hgt] at h
        by_cases htie : |row j - st.1| < tie_break_threshold
        · rw [if_pos htie] at h
          cases hst : st.2 with
          | none =>
            rw [hst] at h
            simp at h
          | some b =>
            rw [hst] at h
            dsimp only at h
            by_cases hw : (agents.getD j default).current_workload <
                (agents.getD b default).current_workload
            · rw [if_pos hw] at h
              rcases ih _ s bi h with ⟨h1, h2⟩ | h3
              · exact Or.inl ⟨List.mem_cons_of_mem j h1, h2⟩
              · cases Option.some.inj h3
                exact Or.inl ⟨List.mem_cons_self j js, hju⟩
            · rw [if_neg hw] at h
              rcases ih st s bi h with ⟨h1, h2⟩ | h3
              · exact Or.inl ⟨List.mem_cons_of_mem j h1, h2⟩
              · exact Or.inr (hst.symm.trans h3)
        · rw [if_neg htie] at h
          rcases ih st s bi h with ⟨h1, h2⟩ | h3
          · exact Or.inl ⟨List.mem_cons_of_mem j h1, h2⟩
          · exact Or.inr h3

/-- Invariants of the outer assignment loop: each processed customer adds at
most one triple, every stored agent index is fresh against the used set, and
all indices stay below the agent count. -/
theorem assignLoop_ok (agents : List Agent) (matrix : ℕ → ℕ → ℚ) :
    ∀ (cis : List ℕ) (acc : List (ℕ × ℕ × ℚ)) (used : List ℕ)
      (res : List (ℕ × ℕ × ℚ)),
      assignLoop agents matrix cis acc used = .ok res →
      (∀ t ∈ acc, t.2.1 ∈ used) →
      (∀ t ∈ acc, t.2.1 < agents.length) →
      (acc.map (fun t => t.2.1)).Nodup →
      res.length ≤ acc.length + cis.length ∧
      (res.map (fun t => t.2.1)).Nodup ∧
      (∀ t ∈ res, t.2.1 < agents.length) := by
  intro cis
  induction cis with
  | nil =>
    intro acc used res h hused hlt hnd
    unfold assignLoop at h
    injection h with h'
    subst h'
    exact ⟨by simp, hnd, hlt⟩
  | cons ci cis ih =>
    intro acc used res h hused hlt hnd
    unfold assignLoop at h
    cases hfb : findBest agents (matrix ci) used with
    | error e =>
      rw [hfb] at h
      simp at h
    | ok pr =>
      obtain ⟨q, opt⟩ := pr
      rw [hfb] at h
      cases opt with
      | none =>
        rcases ih acc used res h hused hlt hnd with ⟨h1, h2, h3⟩
        refine ⟨le_trans h1 ?_, h2, h3⟩
        simp only [List.length_cons]
        omega
      | some bi =>
        unfold findBest at hfb
        rcases findBestAux_ok_some agents (matrix ci) used
            (List.range agents.length) (-1, none) q bi hfb with ⟨hmem, hnotused⟩ | habs
        · have hbilt : bi < agents.length := List.mem_range.1 hmem
          have hbi_notin_acc : bi ∉ acc.map (fun t => t.2.1) := by
            intro hin
            rcases List.mem_map.1 hin with ⟨t, ht, hteq⟩
            exact hnotused (hteq ▸ hused t ht)
          rcases ih (acc ++ [(ci, bi, q)]) (bi :: used) res h
              (by
                intro t ht
                rcases List.mem_append.1 ht with h1 | h2
                · exact List.mem_cons_of_mem bi (hused t h1)
                · rw [List.mem_singleton.1 h2]
                  exact List.mem_cons_self bi used)
              (by
                intro t ht
                rcases List.mem_append.1 ht with h1 | h2
                · exact hlt t h1
                · rw [List.mem_singleton.1 h2]
                  exact hbilt)
              (by
                rw [List.map_append]
                simp only [List.map_cons, List.map_nil]
                rw [List.nodup_append]
                exact ⟨hnd, List.nodup_singleton bi,
                  fun x hx hx' => hbi_notin_acc ((List.mem_singleton.1 hx') ▸ hx)⟩)
            with ⟨h1, h2, h3⟩
          refine ⟨?_, h2, h3⟩
          simp only [List.length_append, List.length_singleton, List.length_cons,
            List.length_nil] at h1 ⊢
          omega
        · simp at habs

/-- C6: a successful routing pass returns at most min of the customer and
agent counts many triples, and no agent index appears twice. -/
theorem assignment_count_and_agent_uniqueness :
    ∀ (customers : List Customer) (agents : List Agent) (matrix : ℕ → ℕ → ℚ)
      (res : List (ℕ × ℕ × ℚ)),
      perform_optimal_assignment customers agents matrix = .ok res →
      res.length ≤ min customers.length agents.length ∧
      (res.map (fun t => t.2.1)).Nodup := by
  intro customers agents matrix res h
  unfold perform_optimal_assignment at h
  rcases assignLoop_ok agents matrix _ [] [] res h (by simp) (by simp) (by simp)
    with ⟨h1, h2, h3⟩
  refine ⟨le_min ?_ ?_, h2⟩
  · have hlen : (sortByPriorityDesc (fun i => (customers.getD i default).priority)
        (List.range customers.length)).length = customers.length := by
      rw [(perm_sortByPriorityDesc _ _).length_eq, List.length_range]
    rw [hlen] at h1
    simp only [List.length_nil] at h1
    omega
  · have hcard : (res.map (fun t => t.2.1)).length ≤ agents.length := by
      have hsub : (res.map (fun t => t.2.1)).toFinset ⊆ Finset.range agents.length := by
        intro x hx
        rw [List.mem_toFinset] at hx
        rcases List.mem_map.1 hx with ⟨t, ht, rfl⟩
        exact Finset.mem_range.2 (h3 t ht)
      calc (res.map (fun t => t.2.1)).length
          = (res.map (fun t => t.2.1)).toFinset.card :=
            (List.toFinset_card_of_nodup h2).symm
        _ ≤ (Finset.range agents.length).card := Finset.card_le_card hsub
        _ = agents.length := Finset.card_range _
    rw [List.length_map] at hcard
    exact hcard

/-- C6 witness: the two-agent one-customer pass returns one triple, within
both bounds and with distinct agent indices. -/
theorem assignment_count_and_agent_uniqueness_witness :
    perform_optimal_assignment [base_customer] [c2_agent0, c2_agent1] c2_matrix
      = .ok [(0, 1, 0.52)] ∧
    ([((0 : ℕ), (1 : ℕ), (0.52 : ℚ))].length ≤
        min [base_customer].length [c2_agent0, c2_agent1].length ∧
      ([((0 : ℕ), (1 : ℕ), (0.52 : ℚ))].map (fun t => t.2.1)).Nodup) :=
  ⟨by with_unfolding_all rfl,
   assignment_count_and_agent_uniqueness [base_customer] [c2_agent0, c2_agent1]
     c2_matrix [(0, 1, 0.52)] (by with_unfolding_all rfl)⟩

/-- C2 counterexample: the two agents score 0.50 and 0.52, within the 0.03
threshold, and the first-visited agent has the strictly lower workload, yet
the pass assigns the second-visited, busier agent: the strictly-greater
branch fires before any tie-break is considered. -/
theorem tie_break_counterexample :
    |c2_matrix 0 1 - c2_matrix 0 0| < tie_break_threshold ∧
    c2_agent0.current_workload < c2_agent1.current_workload ∧
    perform_optimal_assignment [base_customer] [c2_agent0, c2_agent1] c2_matrix
      = .ok [(0, 1, 0.52)] := by
  refine ⟨?_, by decide, by with_unfolding_all rfl⟩
  rw [abs_sub_lt_iff]
  constructor <;> norm_num [c2_matrix, tie_break_threshold]

/-- C2 amended: with a single customer and exactly two candidate agents
scoring within the 0.03 threshold, the solver assigns the lower-workload
agent only when the second-visited agent does not strictly outscore the
first; when it does, the second-visited agent is chosen regardless of
workload, because the tie-break only runs in the not-strictly-greater
branch. -/
theorem tie_break_two_agents :
    ∀ (c : Customer) (a0 a1 : Agent) (m : ℕ → ℕ → ℚ),
      0 ≤ m 0 0 → 0 ≤ m 0 1 → |m 0 1 - m 0 0| < tie_break_threshold →
      perform_optimal_assignment [c] [a0, a1] m =
        .ok [if m 0 0 < m 0 1 then ((0 : ℕ), (1 : ℕ), m 0 1)
             else if a1.current_workload < a0.current_workload then (0, 1, m 0 1)
             else (0, 0, m 0 0)] := by
  intro c a0 a1 m h0 h1 ht
  have hm : m 0 0 > (-1 : ℚ) := lt_of_lt_of_le (by norm_num) h0
  have hfb : findBest [a0, a1] (m 0) [] =
      .ok (if m 0 0 < m 0 1 then (m 0 1, some 1)
           else if a1.current_workload < a0.current_workload then (m 0 1, some 1)
           else (m 0 0, some 0)) := by
    show findBestAux [a0, a1] (m 0) [] [0, 1] (-1, none) = _
    rw [findBestAux, if_neg (List.not_mem_nil 0), if_pos hm]
    rw [findBestAux, if_neg (List.not_mem_nil 1)]
    by_cases hgt : m 0 1 > m 0 0
    · rw [if_pos hgt, findBestAux, if_pos hgt]
    · rw [if_neg hgt]
      rw [if_pos (show |m 0 1 - (m 0 0, some 0).1| < tie_break_threshold from ht)]
      show (if a1.current_workload < a0.current_workload then
          findBestAux [a0, a1] (m 0) [] [] (m 0 1, some 1)
        else findBestAux [a0, a1] (m 0) [] [] (m 0 0, some 0)) = _
      by_cases hw : a1.current_workload < a0.current_workload
      · rw [if_pos hw, findBestAux, if_neg hgt, if_pos hw]
      · rw [if_neg hw, findBestAux, if_neg hgt, if_neg hw]
  show assignLoop [a0, a1] m [0] [] [] = _
  by_cases hgt : m 0 0 < m 0 1
  · rw [if_pos hgt] at hfb ⊢
    rw [assignLoop, hfb]
    rfl
  · rw [if_neg hgt] at hfb ⊢
    by_cases hw : a1.current_workload < a0.current_workload
    · rw [if_pos hw] at hfb ⊢
      rw [assignLoop, hfb]
      rfl
    · rw [if_neg hw] at hfb ⊢
      rw [assignLoop, hfb]
      rfl

/-- C2 witness: on the concrete tie-break scenario, the amended rule picks
the second-visited agent, which strictly outscores the first within the
threshold. -/
theorem tie_break_two_agents_witness :
    (0 : ℚ) ≤ c2_matrix 0 0 ∧ (0 : ℚ) ≤ c2_matrix 0 1 ∧
    |c2_matrix 0 1 - c2_matrix 0 0| < tie_break_threshold ∧
    perform_optimal_assignment [base_customer] [c2_agent0, c2_agent1] c2_matrix =
      .ok [if c2_matrix 0 0 < c2_matrix 0 1 then ((0 : ℕ), (1 : ℕ), c2_matrix 0 1)
           else if c2_agent1.current_workload < c2_agent0.current_workload then
             (0, 1, c2_matrix 0 1)
           else (0, 0, c2_matrix 0 0)] :=
  ⟨by norm_num [c2_matrix], by norm_num [c2_matrix],
   by
     rw [abs_sub_lt_iff]
     constructor <;> norm_num [c2_matrix, tie_break_threshold],
   tie_break_two_agents base_customer c2_agent0 c2_agent1 c2_matrix
     (by norm_num [c2_matrix]) (by norm_num [c2_matrix])
     (by
       rw [abs_sub_lt_iff]
       constructor <;> norm_num [c2_matrix, tie_break_threshold])⟩

/-- Every score falls in exactly one of the three confidence buckets, so the
three bucket counts always partition the list length. -/
theorem confidence_partition :
    ∀ l : List ℚ,
      l.countP (fun s => decide (s ≥ 0.8)) +
        l.countP (fun s => decide (0.6 ≤ s ∧ s < 0.8)) +
        l.countP (fun s => decide (s < 0.6)) = l.length := by
  intro l
  induction l with
  | nil => rfl
  | cons x xs ih =>
    simp only [List.countP_cons, List.length_cons, decide_eq_true_eq]
    rcases le_or_lt (0.8 : ℚ) x with h8 | h8
    · have hm : ¬ (0.6 ≤ x ∧ x < 0.8) := fun hh => absurd hh.2 (not_lt.2 h8)
      have hl : ¬ x < 0.6 := not_lt.2 (le_trans (by norm_num) h8)
      rw [if_pos h8, if_neg hm, if_neg hl]
      omega
    · rcases le_or_lt (0.6 : ℚ) x with h6 | h6
      · have hh : ¬ x ≥ 0.8 := not_le.2 h8
        have hl : ¬ x < 0.6 := not_lt.2 h6
        rw [if_neg hh, if_pos ⟨h6, h8⟩, if_neg hl]
        omega
      · have hh : ¬ x ≥ 0.8 := not_le.2 (lt_trans h6 (by norm_num))
        have hm : ¬ (0.6 ≤ x ∧ x < 0.8) := fun hh' => absurd h6 (not_lt.2 hh'.1)
        rw [if_neg hh, if_neg hm, if_pos h6]
        omega

/-- C10: on the empty result list the statistics are exactly the five-key
zero dictionary with no score distribution; on every nonempty list the
distribution is present, holding the min, max and std of the scores, and the
high, medium and low confidence counts sum to the total. -/
theorem routing_statistics_spec :
    ∀ (sqrtA : ℚ → ℚ),
      get_routing_statistics sqrtA [] =
        { total_routings := 0
          average_score := 0.0
          high_confidence_matches := 0
          medium_confidence_matches := 0
          low_confidence_matches := 0
          score_distribution := none } ∧
      ∀ results : List RoutingResult, results ≠ [] →
        (get_routing_statistics sqrtA results).score_distribution =
          some { min := listMin (scores_of results)
                 max := listMax (scores_of results)
                 std := sqrtA (score_variance results) } ∧
        (get_routing_statistics sqrtA results).high_confidence_matches +
            (get_routing_statistics sqrtA results).medium_confidence_matches +
            (get_routing_statistics sqrtA results).low_confidence_matches =
          (get_routing_statistics sqrtA results).total_routings := by
  intro sqrtA
  refine ⟨rfl, ?_⟩
  intro results hne
  unfold get_routing_statistics
  rw [if_neg hne]
  refine ⟨rfl, ?_⟩
  dsimp only
  have h := confidence_partition (scores_of results)
  have hlen : (scores_of results).length = results.length := List.length_map _ _
  rw [hlen] at h
  exact h

/-- C10 witness: the statistics of a single 0.85-scored result carry a
distribution block and bucket counts summing to one. -/
theorem routing_statistics_spec_witness :
    ([c10_result] ≠ ([] : List RoutingResult)) ∧
    ((get_routing_statistics (fun q => q) [c10_result]).score_distribution =
      some { min := listMin (scores_of [c10_result])
             max := listMax (scores_of [c10_result])
             std := (fun q => q) (score_variance [c10_result]) } ∧
    (get_routing_statistics (fun q => q) [c10_result]).high_confidence_matches +
        (get_routing_statistics (fun q => q) [c10_result]).medium_confidence_matches +
        (get_routing_statistics (fun q => q) [c10_result]).low_confidence_matches =
      (get_routing_statistics (fun q => q) [c10_result]).total_routings) :=
  ⟨List.cons_ne_nil c10_result [],
   (routing_statistics_spec (fun q => q)).2 [c10_result]
     (List.cons_ne_nil c10_result [])⟩

end SQRS
